import Mathlib

/-!
# Verification of the toolbartender planner core

Shallow embedding of `src/planner.py`: the intent classifier, the slot
extractors (date, time, route, email, title) and the plan compiler
`create_plan`, together with theorems settling the specification claims.

Python regular expressions are embedded as explicit character-list
scanners that reproduce the leftmost-match, greedy/lazy backtracking
behaviour of each concrete pattern used by the source.  Python string
truthiness on optional strings (`None` and `""` are falsy) is embedded
as `pyTruthy`.  The `uuid`-generated plan identifier is the only
non-deterministic input of `create_plan`; it is passed explicitly as the
`planId` argument.
-/

set_option maxHeartbeats 2000000

namespace ToolBartender

/-! ## Python string semantics helpers -/

/-- Boolean contiguous-sublist test: `k` occurs inside `l`. -/
def infixOfB (k : List Char) : List Char → Bool
  | [] => k.isEmpty
  | c :: cs => k.isPrefixOf (c :: cs) || infixOfB k cs

/-- Python `k in g` substring containment (`in` on `str`). -/
def pyContains (g k : String) : Bool := infixOfB k.data g.data

/-- Python whitespace (`str.strip` / regex `\s`), the ASCII part that the
source's inputs exercise: space, tab, newline, carriage return, vertical
tab and form feed. -/
def isPySpace (c : Char) : Bool :=
  c = ' ' || c = '\t' || c = '\n' || c = '\r' || c = '\x0b' || c = '\x0c'

/-- `str.strip()`: drop whitespace from both ends. -/
def pyStripList (l : List Char) : List Char :=
  ((l.dropWhile isPySpace).reverse.dropWhile isPySpace).reverse

/-- `str.strip()` on a `String`. -/
def pyStrip (s : String) : String := String.mk (pyStripList s.data)

/-- Truthiness of a Python `Optional[str]`: `None` and `""` are falsy. -/
def pyTruthy (o : Option String) : Bool :=
  match o with
  | none => false
  | some s => !s.isEmpty

/-- Value of a Python `Optional[str]` in a context where it was checked
truthy (so the default is never observed). -/
def pyVal (o : Option String) : String := o.getD ""

/-! ## Intent classifier (`_classify_intent`) -/

/-- Schedule-noun keywords: `("일정", "스케줄", "미팅", "회의")`. -/
def scheduleNounKw (g : String) : Bool :=
  pyContains g "일정" || pyContains g "스케줄" || pyContains g "미팅" || pyContains g "회의"

/-- Cancel action keywords: `("취소", "삭제")`. -/
def cancelActionKw (g : String) : Bool :=
  pyContains g "취소" || pyContains g "삭제"

/-- Update action keywords: `("변경", "수정", "옮겨", "재조정")`. -/
def updateActionKw (g : String) : Bool :=
  pyContains g "변경" || pyContains g "수정" || pyContains g "옮겨" || pyContains g "재조정"

/-- Create action keywords: `("잡아", "등록", "추가", "생성")`. -/
def createActionKw (g : String) : Bool :=
  pyContains g "잡아" || pyContains g "등록" || pyContains g "추가" || pyContains g "생성"

/-- Route keywords: `("에서", "까지", "으로", "→", "->", "이동", "가는", "가야")`. -/
def routeKw (g : String) : Bool :=
  pyContains g "에서" || pyContains g "까지" || pyContains g "으로" ||
  pyContains g "→" || pyContains g "->" || pyContains g "이동" ||
  pyContains g "가는" || pyContains g "가야"

/-- Paper rule: `"논문" in g and any(("검색", "서치", "찾아", "요약"))`. -/
def paperKw (g : String) : Bool :=
  pyContains g "논문" &&
  (pyContains g "검색" || pyContains g "서치" || pyContains g "찾아" || pyContains g "요약")

/-- News rule: `"뉴스" in g and any(("분석","요약","정리")) and any(("카톡","카카오","보내"))`. -/
def newsKw (g : String) : Bool :=
  pyContains g "뉴스" &&
  (pyContains g "분석" || pyContains g "요약" || pyContains g "정리") &&
  (pyContains g "카톡" || pyContains g "카카오" || pyContains g "보내")

/-- `_classify_intent` from `src/planner.py`: strip the goal, then the
ordered keyword rules, first match wins, default `"unknown"`. -/
def _classify_intent (goal : String) : String :=
  let g := pyStrip goal
  if cancelActionKw g && scheduleNounKw g then "schedule_cancel"
  else if updateActionKw g && scheduleNounKw g then "schedule_update"
  else if createActionKw g && scheduleNounKw g then "schedule_create"
  else if routeKw g then "route"
  else if paperKw g then "paper_search_summarize_email"
  else if newsKw g then "news_analyze_kakao_send"
  else "unknown"

/-- An ordered rule list: the tag of the first rule whose predicate is
satisfied, `"unknown"` when none is. -/
def firstTag : List ((String → Bool) × String) → String → String
  | [], _ => "unknown"
  | (p, t) :: rs, g => if p g then t else firstTag rs g

/-- The classifier's rule list as the spec states it: priority (highest
first) cancel-schedule, update-schedule, create-schedule, route,
paper-search, news-kakao; each schedule rule is the conjunction of an
action-keyword test and a schedule-noun test. -/
def intentRules : List ((String → Bool) × String) :=
  [ (fun g => cancelActionKw g && scheduleNounKw g, "schedule_cancel"),
    (fun g => updateActionKw g && scheduleNounKw g, "schedule_update"),
    (fun g => createActionKw g && scheduleNounKw g, "schedule_create"),
    (fun g => routeKw g, "route"),
    (fun g => paperKw g, "paper_search_summarize_email"),
    (fun g => newsKw g, "news_analyze_kakao_send") ]

/-- The intent classifier as the spec describes it: evaluate the fixed
ordered rule list on the stripped goal. -/
def classifyByRules (goal : String) : String := firstTag intentRules (pyStrip goal)

/-- C3: the intent classifier is a total function that evaluates the fixed
ordered rule list `intentRules` and returns the tag of the first satisfied
rule — priority (highest first) schedule_cancel, schedule_update,
schedule_create, route, paper_search_summarize_email,
news_analyze_kakao_send — and `"unknown"` when no rule matches; each
schedule rule is the conjunction of an action-keyword test with the
schedule-noun test `scheduleNounKw`. -/
theorem C3_classifier_is_ordered_rule_list (goal : String) :
    _classify_intent goal = classifyByRules goal := rfl

/-! ## Date extractor (`_infer_date_token`)

The source searches `re.search(r"\b(20\d{2})-(\d{2})-(\d{2})\b", goal)` and
returns the whole match verbatim, else falls back on the `"오늘"` /
`"내일"` keywords. -/

/-- Python regex `\w` (a word character) for the character ranges this
code base exercises: ASCII alphanumerics, underscore, and Hangul
(syllables, jamo, compatibility jamo). -/
def isWordChar (c : Char) : Bool :=
  c.isAlphanum || c = '_' ||
  (0xAC00 ≤ c.toNat && c.toNat ≤ 0xD7A3) ||
  (0x1100 ≤ c.toNat && c.toNat ≤ 0x11FF) ||
  (0x3130 ≤ c.toNat && c.toNat ≤ 0x318F)

/-- Right-hand `\b` after a word character: the next character must be
absent or not a word character. -/
def nonWordHead (l : List Char) : Bool :=
  match l with
  | [] => true
  | c :: _ => !isWordChar c

/-- One anchored attempt of `\b(20\d{2})-(\d{2})-(\d{2})\b` at the head of
`l`; `prevW` says whether the character before `l` is a word character
(for the left `\b`, which precedes the digit `2`). -/
def dateMatchAt (prevW : Bool) (l : List Char) : Option (List Char) :=
  if prevW then none else
  match l with
  | '2' :: '0' :: y3 :: y4 :: '-' :: m1 :: m2 :: '-' :: d1 :: d2 :: rest =>
    if y3.isDigit && y4.isDigit && m1.isDigit && m2.isDigit &&
        d1.isDigit && d2.isDigit && nonWordHead rest then
      some ['2', '0', y3, y4, '-', m1, m2, '-', d1, d2]
    else none
  | _ => none

/-- `re.search` for the date pattern: leftmost match. -/
def dateSearchAux (prevW : Bool) : List Char → Option (List Char)
  | [] => none
  | c :: cs =>
    match dateMatchAt prevW (c :: cs) with
    | some m => some m
    | none => dateSearchAux (isWordChar c) cs

/-- `_infer_date_token` from `src/planner.py`. -/
def _infer_date_token (goal : String) : String :=
  match dateSearchAux false goal.data with
  | some m => String.mk m
  | none =>
    if pyContains goal "오늘" then "today"
    else if pyContains goal "내일" then "tomorrow"
    else "unknown"

/-- The claim's notion of "a date substring of the form YYYY-MM-DD",
anchored at the head of the list: four digits, dash, two digits, dash,
two digits. -/
def dateShapedAt (l : List Char) : Bool :=
  match l with
  | y1 :: y2 :: y3 :: y4 :: '-' :: m1 :: m2 :: '-' :: d1 :: d2 :: _ =>
    y1.isDigit && y2.isDigit && y3.isDigit && y4.isDigit &&
    m1.isDigit && m2.isDigit && d1.isDigit && d2.isDigit
  | _ => false

/-- The goal contains a YYYY-MM-DD shaped substring somewhere. -/
def containsDateShaped : List Char → Bool
  | [] => false
  | c :: t => dateShapedAt (c :: t) || containsDateShaped t

/-- What the code's date regex accepts, as a whole-string shape: the year
starts with `20`. -/
def dateShaped20 (m : List Char) : Bool :=
  match m with
  | ['2', '0', y3, y4, '-', m1, m2, '-', d1, d2] =>
    y3.isDigit && y4.isDigit && m1.isDigit && m2.isDigit && d1.isDigit && d2.isDigit
  | _ => false

theorem infixOfB_of_isPrefixOf {k l : List Char} (h : k.isPrefixOf l = true) :
    infixOfB k l = true := by
  cases l with
  | nil => cases k with
    | nil => rfl
    | cons a as => simp [List.isPrefixOf] at h
  | cons c cs => simp [infixOfB, h]

theorem infixOfB_cons {k cs : List Char} (c : Char) (h : infixOfB k cs = true) :
    infixOfB k (c :: cs) = true := by
  simp [infixOfB, h]

theorem dateMatchAt_sound {prevW : Bool} {l m : List Char}
    (h : dateMatchAt prevW l = some m) :
    m.isPrefixOf l = true ∧ dateShaped20 m = true := by
  unfold dateMatchAt at h
  split at h
  · exact absurd h (by simp)
  · split at h
    · next y3 y4 m1 m2 d1 d2 rest =>
      split at h
      · next hcond =>
        cases h
        refine ⟨?_, ?_⟩
        · simp [List.isPrefixOf]
        · simp only [Bool.and_eq_true] at hcond
          simp [dateShaped20, hcond.1, hcond.2]
      · exact absurd h (by simp)
    · exact absurd h (by simp)

theorem dateSearchAux_sound {l m : List Char} :
    ∀ {prevW : Bool}, dateSearchAux prevW l = some m →
      infixOfB m l = true ∧ dateShaped20 m = true := by
  induction l with
  | nil => intro prevW h; exact absurd h (by simp [dateSearchAux])
  | cons c cs ih =>
    intro prevW h
    unfold dateSearchAux at h
    split at h
    · next m' hm =>
      cases h
      have := dateMatchAt_sound hm
      exact ⟨infixOfB_of_isPrefixOf this.1, this.2⟩
    · next hm =>
      have := ih h
      exact ⟨infixOfB_cons c this.1, this.2⟩

/-- C4 (amended): whenever the code's date regex
`\b(20\d{2})-(\d{2})-(\d{2})\b` has a match in the goal, the extractor
returns the leftmost match verbatim — a substring of the goal of the
shape `20YY-MM-DD` — and this takes priority over the `"오늘"` and
`"내일"` keywords; when the regex has no match the extractor returns
`"today"` if the goal contains `"오늘"`, else `"tomorrow"` if it contains
`"내일"`, else `"unknown"`. -/
theorem C4_date_token_amended (goal : String) :
    _infer_date_token goal =
      (match dateSearchAux false goal.data with
       | some m => String.mk m
       | none =>
         if pyContains goal "오늘" then "today"
         else if pyContains goal "내일" then "tomorrow"
         else "unknown") ∧
    Option.all (fun m => infixOfB m goal.data && dateShaped20 m)
      (dateSearchAux false goal.data) = true := by
  refine ⟨rfl, ?_⟩
  cases hm : dateSearchAux false goal.data with
  | none => rfl
  | some m =>
    have := dateSearchAux_sound hm
    simp [Option.all, this.1, this.2]

/-- C4 counterexample: the goal `"1999-01-01"` contains a date substring
of the form YYYY-MM-DD, yet the extractor returns `"unknown"` rather than
that substring, because the code's regex only accepts years `20YY`. -/
theorem C4_counterexample :
    containsDateShaped ("1999-01-01".data) = true ∧
    _infer_date_token "1999-01-01" ≠ "1999-01-01" ∧
    _infer_date_token "1999-01-01" = "unknown" := by
  refine ⟨by decide, by decide, by decide⟩

/-! ## Time extractor (`_infer_hhmm`)

Three regex families, tried in order on the stripped goal, each with a
0–23 / 0–59 range check before the zero-padded `HH:MM` result; a family
whose candidate fails the range check falls through to the next family.
-/

/-- Value of a decimal digit character. -/
def dval (c : Char) : Nat := c.toNat - '0'.toNat

/-- One anchored attempt of `\b(\d{1,2}):(\d{2})\b` at the head of `l`
(greedy: the two-digit hour is tried before the one-digit hour). -/
def hhmm1At (prevW : Bool) (l : List Char) : Option (Nat × Nat) :=
  if prevW then none else
    (match l with
     | a :: b :: ':' :: c :: d :: rest =>
       if a.isDigit && b.isDigit && c.isDigit && d.isDigit && nonWordHead rest then
         some (10 * dval a + dval b, 10 * dval c + dval d)
       else none
     | _ => none).orElse fun _ =>
    match l with
    | a :: ':' :: c :: d :: rest =>
      if a.isDigit && c.isDigit && d.isDigit && nonWordHead rest then
        some (dval a, 10 * dval c + dval d)
      else none
    | _ => none

/-- `re.search` for family 1: leftmost match. -/
def hhmm1Search (prevW : Bool) : List Char → Option (Nat × Nat)
  | [] => none
  | c :: cs =>
    match hhmm1At prevW (c :: cs) with
    | some r => some r
    | none => hhmm1Search (isWordChar c) cs

/-- Greedy `(\d{1,2})` followed by the literal `stop` character: the
two-digit reading is tried first, then the one-digit reading. -/
def digitsThen (stop : Char) (t : List Char) : Option (Nat × List Char) :=
  (match t with
   | a :: b :: c :: rest =>
     if a.isDigit && b.isDigit && c = stop then some (10 * dval a + dval b, rest) else none
   | _ => none).orElse fun _ =>
  match t with
  | a :: c :: rest => if a.isDigit && c = stop then some (dval a, rest) else none
  | _ => none

/-- After a marker (`오전`/`오후`/`저녁`/`밤`): the tail
`\s*(\d{1,2})시(?:\s*(\d{1,2})분)?` of families 2 and 3.  The `\s*` runs
are maximal (whitespace and digits are disjoint, so the greedy star
cannot backtrack into a successful digit read), and a failing optional
minutes group contributes `0` (`int(m.group(3) or 0)`). -/
def hourMinAfter (l : List Char) : Option (Nat × Nat) :=
  match digitsThen '시' (l.dropWhile isPySpace) with
  | none => none
  | some (hh, rest) =>
    match digitsThen '분' (rest.dropWhile isPySpace) with
    | some (mm, _) => some (hh, mm)
    | none => some (hh, 0)

/-- `re.search(r"(오전|오후)\s*(\d{1,2})시(?:\s*(\d{1,2})분)?", g)`:
leftmost occurrence of either marker that completes the pattern; the
Bool is `true` for `오후` (PM). -/
def fam2Search : List Char → Option (Bool × Nat × Nat)
  | [] => none
  | c :: cs =>
    match
      (if c = '오' then
        match cs with
        | c2 :: rest =>
          if c2 = '전' then (hourMinAfter rest).map (fun p => (false, p))
          else if c2 = '후' then (hourMinAfter rest).map (fun p => (true, p))
          else none
        | [] => none
      else none) with
    | some r => some r
    | none => fam2Search cs

/-- `re.search(r"(저녁|밤)\s*(\d{1,2})시(?:\s*(\d{1,2})분)?", g)`. -/
def fam3Search : List Char → Option (Nat × Nat)
  | [] => none
  | c :: cs =>
    match
      (if c = '저' then
        match cs with
        | c2 :: rest => if c2 = '녁' then hourMinAfter rest else none
        | [] => none
      else if c = '밤' then hourMinAfter cs
      else none) with
    | some r => some r
    | none => fam3Search cs

/-- Python `f"{n:02d}"` for a natural number. -/
def fmt2 (n : Nat) : String := if n < 10 then "0" ++ Nat.repr n else Nat.repr n

/-- Python `f"{hh:02d}:{mm:02d}"`. -/
def fmtHHMM (hh mm : Nat) : String := fmt2 hh ++ ":" ++ fmt2 mm

/-- The range check `0 <= hh <= 23 and 0 <= mm <= 59` (the lower bounds
hold in `Nat`) guarding the zero-padded result; on failure the family
falls through to `fallback`. -/
def rangedFmt (hh mm : Nat) (fallback : Option String) : Option String :=
  if hh ≤ 23 && mm ≤ 59 then some (fmtHHMM hh mm) else fallback

/-- Family 3 of `_infer_hhmm`: evening/night hours are pushed to PM
(`if hh < 12: hh += 12`), then range-checked. -/
def hhmmFam3 (g : List Char) : Option String :=
  match fam3Search g with
  | some (hh0, mm) => rangedFmt (if hh0 < 12 then hh0 + 12 else hh0) mm none
  | none => none

/-- Family 2 of `_infer_hhmm` (`오후` below 12 gains 12, `오전 12시` becomes
0), falling through to family 3 when it does not produce a validated
value. -/
def hhmmFam2 (g : List Char) : Option String :=
  match fam2Search g with
  | some (pm, hh0, mm) =>
    rangedFmt (if pm && hh0 < 12 then hh0 + 12 else if !pm && hh0 = 12 then 0 else hh0)
      mm (hhmmFam3 g)
  | none => hhmmFam3 g

/-- `_infer_hhmm` from `src/planner.py`. -/
def _infer_hhmm (goal : String) : Option String :=
  match hhmm1Search false (pyStrip goal).data with
  | some (hh, mm) => rangedFmt hh mm (hhmmFam2 (pyStrip goal).data)
  | none => hhmmFam2 (pyStrip goal).data

/-- A zero-padded in-range `HH:MM` string: exactly five characters,
`HH:MM` with decimal digits, hour at most 23, minute at most 59. -/
def isValidHHMM (s : String) : Bool :=
  match s.data with
  | [h1, h2, ':', m1, m2] =>
    h1.isDigit && h2.isDigit && m1.isDigit && m2.isDigit &&
    decide (10 * dval h1 + dval h2 ≤ 23) && decide (10 * dval m1 + dval m2 ≤ 59)
  | _ => false

theorem fmtHHMM_valid_fin :
    ∀ (hh : Fin 24) (mm : Fin 60), isValidHHMM (fmtHHMM hh.val mm.val) = true := by decide

theorem fmtHHMM_valid {hh mm : Nat} (hh23 : hh ≤ 23) (mm59 : mm ≤ 59) :
    isValidHHMM (fmtHHMM hh mm) = true :=
  fmtHHMM_valid_fin ⟨hh, by omega⟩ ⟨mm, by omega⟩

theorem rangedFmt_valid (hh mm : Nat) {fallback : Option String}
    (hfb : Option.all isValidHHMM fallback = true) :
    Option.all isValidHHMM (rangedFmt hh mm fallback) = true := by
  unfold rangedFmt
  split
  · next hrange =>
    simp only [Bool.and_eq_true, decide_eq_true_eq] at hrange
    simp [Option.all, fmtHHMM_valid hrange.1 hrange.2]
  · exact hfb

theorem hhmmFam3_valid (g : List Char) :
    Option.all isValidHHMM (hhmmFam3 g) = true := by
  unfold hhmmFam3
  split
  · exact rangedFmt_valid _ _ rfl
  · rfl

theorem hhmmFam2_valid (g : List Char) :
    Option.all isValidHHMM (hhmmFam2 g) = true := by
  unfold hhmmFam2
  split
  · exact rangedFmt_valid _ _ (hhmmFam3_valid g)
  · exact hhmmFam3_valid g

/-- C5: time extraction is range-safe.  Whatever the goal, whenever
`_infer_hhmm` returns a value it is a zero-padded `HH:MM` string with
`0 ≤ HH ≤ 23` and `0 ≤ MM ≤ 59`; a candidate failing the range check is
never returned (the failing family is treated as absent and the next one
is tried), and when nothing validates the result is `none` rather than an
error — the function is total. -/
theorem C5_hhmm_range_safe (goal : String) :
    Option.all isValidHHMM (_infer_hhmm goal) = true := by
  unfold _infer_hhmm
  split
  · exact rangedFmt_valid _ _ (hhmmFam2_valid _)
  · exact hhmmFam2_valid _

/-! ## Route extractor (`_infer_route`)

`re.findall(r"(.+?)에서\s*(.+?)(?:으로|까지)", g)` taking the last match,
else `re.search(r"(.+?)\s*(?:->|→)\s*(.+)", g)`, else `(None, None)`.
`.` does not match a newline; the lazy groups grow one character at a
time; a greedy `\s*` backtracks from its maximal run. -/

/-- Lazy `(.+?)(?:으로|까지)`: grow the group one non-newline character at
a time, after each character trying the suffix `으로` first, then `까지`.
Returns the group and the remainder after the whole match. -/
def routeToScan (acc : List Char) : List Char → Option (List Char × List Char)
  | [] => none
  | c :: cs =>
    if c = '\n' then none
    else
      match cs with
      | '으' :: '로' :: rest => some ((c :: acc).reverse, rest)
      | '까' :: '지' :: rest => some ((c :: acc).reverse, rest)
      | _ => routeToScan (c :: acc) cs

/-- Greedy `\s*` before the lazy destination group: try the maximal
whitespace run first and backtrack one character at a time. -/
def routeCompleteK (s : List Char) : Nat → Option (List Char × List Char)
  | 0 => routeToScan [] s
  | k + 1 =>
    match routeToScan [] (s.drop (k + 1)) with
    | some r => some r
    | none => routeCompleteK s k

/-- `\s*(.+?)(?:으로|까지)` after the literal `에서`. -/
def routeCompleteAfter (s : List Char) : Option (List Char × List Char) :=
  routeCompleteK s (s.takeWhile isPySpace).length

/-- Lazy `(.+?)에서` followed by the completion: grow the origin group one
non-newline character at a time; after each character, if the remainder
starts with `에서` and the completion succeeds there, the match ends,
otherwise the origin keeps growing (absorbing the failed `에서`). -/
def routeFromScan (acc : List Char) : List Char → Option (List Char × List Char × List Char)
  | [] => none
  | c :: cs =>
    if c = '\n' then none
    else
      match cs with
      | '에' :: '서' :: rest =>
        (match routeCompleteAfter rest with
         | some (dst, rem) => some ((c :: acc).reverse, dst, rem)
         | none => routeFromScan (c :: acc) cs)
      | _ => routeFromScan (c :: acc) cs

/-- `re.findall` for the `에서` pattern: repeated leftmost non-overlapping
matches, the next search resuming where the previous match ended.  The
fuel starts at the list length; every step consumes at least one
character. -/
def routeFindallGo : Nat → List Char → List (List Char × List Char)
  | 0, _ => []
  | fuel + 1, l =>
    match l with
    | [] => []
    | c :: cs =>
      match routeFromScan [] (c :: cs) with
      | some (frm, dst, rem) => (frm, dst) :: routeFindallGo fuel rem
      | none => routeFindallGo fuel cs

/-- All matches of `(.+?)에서\s*(.+?)(?:으로|까지)` in order. -/
def routeFindall (l : List Char) : List (List Char × List Char) :=
  routeFindallGo l.length l

/-- Greedy `\s*(.+)` after the arrow: the maximal whitespace run first,
backtracking one character at a time until the greedy non-newline group
is non-empty. -/
def arrowAfterK (s : List Char) : Nat → Option (List Char)
  | 0 =>
    let t := s.takeWhile (fun c => !(c = '\n'))
    if t.isEmpty then none else some t
  | k + 1 =>
    let t := (s.drop (k + 1)).takeWhile (fun c => !(c = '\n'))
    if t.isEmpty then arrowAfterK s k else some t

/-- `\s*(.+)` after the arrow literal. -/
def arrowAfter (s : List Char) : Option (List Char) :=
  arrowAfterK s (s.takeWhile isPySpace).length

/-- The arrow alternation `(?:->|→)`, `->` tried first, then the tail. -/
def arrowArm (u : List Char) : Option (List Char) :=
  match u with
  | '-' :: '>' :: rest => arrowAfter rest
  | '→' :: rest => arrowAfter rest
  | _ => none

/-- `\s*(?:->|→)\s*(.+)` right after the origin group: the arrow literal
can only follow the maximal whitespace run, since arrow characters are
not whitespace, but the greedy star still backtracks. -/
def arrowTryK (cs : List Char) : Nat → Option (List Char)
  | 0 => arrowArm cs
  | k + 1 =>
    match arrowArm (cs.drop (k + 1)) with
    | some r => some r
    | none => arrowTryK cs k

/-- The arrow alternative anchored after one origin character. -/
def arrowTryAt (cs : List Char) : Option (List Char) :=
  arrowTryK cs (cs.takeWhile isPySpace).length

/-- Lazy `(.+?)` origin of the arrow pattern. -/
def arrowFromScan (acc : List Char) : List Char → Option (List Char × List Char)
  | [] => none
  | c :: cs =>
    if c = '\n' then none
    else
      match arrowTryAt cs with
      | some toPart => some ((c :: acc).reverse, toPart)
      | none => arrowFromScan (c :: acc) cs

/-- `re.search` for the arrow pattern: leftmost start position. -/
def arrowSearchGo : List Char → Option (List Char × List Char)
  | [] => none
  | c :: cs =>
    match arrowFromScan [] (c :: cs) with
    | some r => some r
    | none => arrowSearchGo cs

/-- `_infer_route` from `src/planner.py`: the `에서` pattern's last match,
else the arrow pattern's first match, both groups stripped; otherwise
`(None, None)`. -/
def _infer_route (goal : String) : Option String × Option String :=
  match (routeFindall (pyStrip goal).data).getLast? with
  | some (frm, dst) => (some (pyStrip (String.mk frm)), some (pyStrip (String.mk dst)))
  | none =>
    match arrowSearchGo (pyStrip goal).data with
    | some (frm, dst) => (some (pyStrip (String.mk frm)), some (pyStrip (String.mk dst)))
    | none => (none, none)

/-- Strip both groups of a match pair, as the spec words it. -/
def stripPair (p : List Char × List Char) : Option String × Option String :=
  (some (pyStrip (String.mk p.1)), some (pyStrip (String.mk p.2)))

/-- The route-extraction policy as the spec states it: the last match of
the repeated `"A에서 B(으로|까지)"` pattern when there is one, otherwise
the first match of the arrow pattern, otherwise nothing. -/
def routePriority (goal : String) : Option String × Option String :=
  (((routeFindall (pyStrip goal).data).getLast?.map stripPair).getD
    (((arrowSearchGo (pyStrip goal).data).map stripPair).getD (none, none)))

/-! Strip is idempotent: the returned origin/destination carry no leading
or trailing whitespace. -/

theorem dropWhile_head?_false {p : Char → Bool} {l : List Char} {c : Char}
    (h : (l.dropWhile p).head? = some c) : p c = false := by
  induction l with
  | nil => simp [List.dropWhile] at h
  | cons a as ih =>
    rw [List.dropWhile_cons] at h
    by_cases hp : p a
    · exact ih (by simpa [hp] using h)
    · simp only [hp, if_neg] at h
      simp only [Bool.false_eq_true, if_false, List.head?_cons, Option.some.injEq] at h
      subst h
      exact Bool.not_eq_true _ ▸ by simpa using hp

theorem dropWhile_eq_self_of_head {p : Char → Bool} {l : List Char}
    (h : ∀ c, l.head? = some c → p c = false) : l.dropWhile p = l := by
  cases l with
  | nil => rfl
  | cons a as => simp [List.dropWhile_cons, h a rfl]

theorem dropWhile_getLast? {p : Char → Bool} {l : List Char}
    (h : l.dropWhile p ≠ []) : (l.dropWhile p).getLast? = l.getLast? := by
  conv_rhs => rw [← List.takeWhile_append_dropWhile (p := p) (l := l)]
  rw [List.getLast?_append]
  cases hg : (l.dropWhile p).getLast? with
  | none => exact absurd (List.getLast?_eq_none_iff.mp hg) h
  | some c => rfl

theorem pyStripList_idem (l : List Char) : pyStripList (pyStripList l) = pyStripList l := by
  unfold pyStripList
  have hBB : ∀ m : List Char, (m.dropWhile isPySpace).dropWhile isPySpace
      = m.dropWhile isPySpace := by
    intro m
    apply dropWhile_eq_self_of_head
    intro c hc
    exact dropWhile_head?_false hc
  set A := l.dropWhile isPySpace with hA
  set B := A.reverse.dropWhile isPySpace with hB
  have h1 : B.reverse.dropWhile isPySpace = B.reverse := by
    apply dropWhile_eq_self_of_head
    intro c hc
    rw [List.head?_reverse] at hc
    by_cases hBnil : B = []
    · simp [hBnil] at hc
    · rw [hB, dropWhile_getLast? (hB ▸ hBnil), List.getLast?_reverse] at hc
      exact dropWhile_head?_false (hA ▸ hc)
  rw [h1, List.reverse_reverse, hBB A.reverse]

theorem pyStrip_idem (s : String) : pyStrip (pyStrip s) = pyStrip s := by
  unfold pyStrip
  exact congrArg String.mk (pyStripList_idem s.data)

/-- C6: the route extractor first tries the repeated `"A에서 B(으로|까지)"`
pattern, returning origin and destination of the last match, both
stripped; otherwise the arrow pattern `"A -> B"` / `"A → B"`, first
match, both stripped; otherwise neither field.  It never returns an
origin without a destination or vice versa, and whatever it returns is
strip-fixed (trimmed). -/
theorem C6_route_priority_and_no_partial (goal : String) :
    _infer_route goal = routePriority goal ∧
    ((_infer_route goal).1 = none ∧ (_infer_route goal).2 = none ∨
      ∃ a b, _infer_route goal = (some a, some b)) ∧
    Option.all (fun s => pyStrip s == s) (_infer_route goal).1 = true ∧
    Option.all (fun s => pyStrip s == s) (_infer_route goal).2 = true := by
  unfold _infer_route routePriority
  cases hl : (routeFindall (pyStrip goal).data).getLast? with
  | some p =>
    cases p with
    | mk frm dst =>
      refine ⟨rfl, Or.inr ⟨_, _, rfl⟩, ?_, ?_⟩ <;>
        simp [Option.all, pyStrip_idem]
  | none =>
    cases ha : arrowSearchGo (pyStrip goal).data with
    | some p =>
      cases p with
      | mk frm dst =>
        refine ⟨rfl, Or.inr ⟨_, _, rfl⟩, ?_, ?_⟩ <;>
          simp [Option.all, pyStrip_idem]
    | none => exact ⟨rfl, Or.inl ⟨rfl, rfl⟩, rfl, rfl⟩

/-! ## Email extractor (`_infer_email`)

`re.search(r"[A-Za-z0-9._%+-]+@[A-Za-z0-9.-]+\.[A-Za-z]{2,}", goal)`,
first match or `None`. -/

/-- The local-part character class `[A-Za-z0-9._%+-]`. -/
def isLocalChar (c : Char) : Bool :=
  c.isAlphanum || c = '.' || c = '_' || c = '%' || c = '+' || c = '-'

/-- The domain character class `[A-Za-z0-9.-]`. -/
def isDomChar (c : Char) : Bool := c.isAlphanum || c = '.' || c = '-'

/-- Greedy-with-backtracking `[A-Za-z0-9.-]+\.[A-Za-z]{2,}`: the split
point of the domain run before the final dot is tried from the right
(the greedy `+` gives back characters one at a time); the TLD is the
maximal alphabetic run of length at least 2 after the dot. -/
def emailDomGo (T : List Char) : Nat → Option (List Char)
  | 0 => none
  | j + 1 =>
    match
      (match T.drop (j + 1) with
       | '.' :: rest =>
         let al := rest.takeWhile Char.isAlpha
         if (T.take (j + 1)).all isDomChar && decide (2 ≤ al.length) then
           some (T.take (j + 1) ++ '.' :: al)
         else none
       | _ => none) with
    | some r => some r
    | none => emailDomGo T j

/-- One anchored attempt of the email pattern: the greedy local part can
only be the maximal run (`@` is outside its class), then the domain. -/
def emailMatchAt (l : List Char) : Option (List Char) :=
  let loc := l.takeWhile isLocalChar
  if loc.isEmpty then none
  else
    match l.drop loc.length with
    | '@' :: T =>
      match emailDomGo T T.length with
      | some dom => some (loc ++ '@' :: dom)
      | none => none
    | _ => none

/-- `re.search` for the email pattern: leftmost match. -/
def emailSearchGo : List Char → Option (List Char)
  | [] => none
  | c :: cs =>
    match emailMatchAt (c :: cs) with
    | some m => some m
    | none => emailSearchGo cs

/-- `_infer_email` from `src/planner.py`. -/
def _infer_email (goal : String) : Option String :=
  (emailSearchGo goal.data).map String.mk

/-! ## Title extractor (`_infer_title`)

`re.search(r"제목\s*[:=]\s*([^,\n]+)", goal)` stripped, else a quoted
2–50 character run, stripped, else `None`. -/

/-- Greedy `\s*` then `([^,\n]+)`: the group may begin inside the
whitespace run when the greedy star backtracks. -/
def titleBodyK (u : List Char) : Nat → Option (List Char)
  | 0 =>
    let body := u.takeWhile (fun d => !(d = ',' || d = '\n'))
    if body.isEmpty then none else some body
  | k + 1 =>
    let body := (u.drop (k + 1)).takeWhile (fun d => !(d = ',' || d = '\n'))
    if body.isEmpty then titleBodyK u k else some body

/-- After the literal `제목`: `\s*[:=]\s*([^,\n]+)` (the first `\s*` is
maximal since `:`/`=` are not whitespace). -/
def titleMarkAt (rest : List Char) : Option (List Char) :=
  match rest.dropWhile isPySpace with
  | c :: u =>
    if c = ':' || c = '=' then titleBodyK u (u.takeWhile isPySpace).length
    else none
  | [] => none

/-- `re.search` for the `제목` marker pattern: leftmost completable
occurrence of the marker. -/
def titleMarkSearch : List Char → Option (List Char)
  | [] => none
  | c :: cs =>
    match
      (if c = '제' then
        match cs with
        | c2 :: rest => if c2 = '목' then titleMarkAt rest else none
        | [] => none
      else none) with
    | some r => some r
    | none => titleMarkSearch cs

/-- Quote characters of the quoted-title pattern `["“”']`. -/
def isQuoteCh (c : Char) : Bool := c = '"' || c = '“' || c = '”' || c = '\x27'

/-- Body characters of the quoted-title pattern `[^\n\r\t]`. -/
def isTitleBodyCh (c : Char) : Bool := !(c = '\n' || c = '\r' || c = '\t')

/-- Greedy `([^\n\r\t]{2,50})` followed by a closing quote: lengths are
tried from 50 downwards to 2. -/
def quoteTryLen (t : List Char) : Nat → Option (List Char)
  | 0 => none
  | n + 1 =>
    match
      (if 2 ≤ n + 1 then
        let body := t.take (n + 1)
        if body.length = n + 1 && body.all isTitleBodyCh then
          match t.drop (n + 1) with
          | c :: _ => if isQuoteCh c then some body else none
          | [] => none
        else none
      else none) with
    | some r => some r
    | none => quoteTryLen t n

/-- `re.search` for the quoted-title pattern: leftmost opening quote with
a completable body. -/
def quoteSearchGo : List Char → Option (List Char)
  | [] => none
  | c :: cs =>
    if isQuoteCh c then
      match quoteTryLen cs 50 with
      | some body => some body
      | none => quoteSearchGo cs
    else quoteSearchGo cs

/-- `_infer_title` from `src/planner.py`. -/
def _infer_title (goal : String) : Option String :=
  match titleMarkSearch goal.data with
  | some body => some (pyStrip (String.mk body))
  | none =>
    match quoteSearchGo goal.data with
    | some body => some (pyStrip (String.mk body))
    | none => none

/-! ## Data model

Modelled from the spec: the `models` module (`Plan`, `PlanStep`) is not
part of the sources; spec §3 describes `PlanStep` as `step_id`,
`tool_name`, `args` (string-keyed mapping of scalar values; the planner
only ever stores strings), and an optional `on_fail` the planner never
sets, and `Plan` as `plan_id`, `intent` (the verbatim goal), `steps`,
`assumptions`, `required_confirmations`, `execution_hint`. -/

/-- Modelled from the spec: one proposed tool invocation (`PlanStep` of
the missing `models` module); `args` keeps the insertion order of the
Python dict. -/
structure PlanStep where
  step_id : String
  tool_name : String
  args : List (String × String)
  on_fail : Option String
deriving DecidableEq, Repr

/-- Modelled from the spec: the `Plan` of the missing `models` module. -/
structure Plan where
  plan_id : String
  intent : String
  steps : List PlanStep
  assumptions : List String
  required_confirmations : List String
  execution_hint : String
deriving DecidableEq, Repr

/-! ## Plan compiler (`create_plan`) -/

/-- `_is_write_like` from `src/planner.py`: the tool name ends with one
of `.create`, `.write`, `.update`, `.delete`, `.send`. -/
def _is_write_like (tool_name : String) : Bool :=
  List.isSuffixOf ".create".data tool_name.data ||
  List.isSuffixOf ".write".data tool_name.data ||
  List.isSuffixOf ".update".data tool_name.data ||
  List.isSuffixOf ".delete".data tool_name.data ||
  List.isSuffixOf ".send".data tool_name.data

/-- `f"step-{n}"`. -/
def stepId (n : Nat) : String := "step-" ++ Nat.repr n

/-- The fixed first assumption of every plan. -/
def confirmAssumption : String :=
  "create/update/delete/send 류는 사용자 확인(required_confirmations) 후 실행합니다."

/-- Appended when `available_tools` is missing or empty. -/
def noToolsAssumption : String :=
  "available_tools가 제공되지 않았습니다. steps는 \x27가정된 도구\x27를 포함할 수 있으며, tb_plan_validate로 누락 도구를 확인하세요."

/-- Route slots could not be parsed. -/
def routeParseAssumption : String :=
  "출발/도착을 파싱하지 못했습니다. 예: \x27판교에서 강남으로\x27 또는 \x27판교 -> 강남\x27"

/-- Title slot could not be parsed. -/
def titleAssumption : String :=
  "일정 제목(title)을 파싱하지 못했습니다. 예: \"제목: 미팅\" 또는 \"\x27미팅\x27 일정 잡아줘\""

/-- Time slot could not be parsed. -/
def timeAssumption : String :=
  "시간(hh:mm)을 파싱하지 못했습니다. 예: \x27오늘 20:00\x27 또는 \x27오후 8시\x27"

/-- `schedule_update` needs an event identifier. -/
def updateAssumption : String :=
  "schedule_update는 event 식별자(event_ref)와 변경사항(changes)이 필요합니다."

/-- `schedule_cancel` needs an event identifier. -/
def cancelAssumption : String :=
  "schedule_cancel은 취소할 일정 식별자(event_ref) 또는 제목이 필요합니다."

/-- Recipient email could not be found. -/
def emailAssumption : String :=
  "받을 이메일(to_email)을 찾지 못했습니다. 예: user@example.com"

/-- Advice on the paper-search query. -/
def paperQueryAssumption : String :=
  "논문 검색 키워드(query)는 goal에 명확히 포함하는 것을 권장합니다. 예: \x27논문 검색: retrieval augmented generation\x27"

/-- Advice on the news topic/target. -/
def newsAssumption : String :=
  "뉴스 주제(topic)와 카톡 대상(target)을 goal에 명확히 포함하는 것을 권장합니다."

/-- The goal could not be classified. -/
def unknownAssumption : String :=
  "의도를 분류하지 못했습니다. goal을 더 구체적으로 작성하세요."

/-- The fixed `execution_hint` of every plan. -/
def executionHint : String :=
  "Execute steps sequentially using tool_name and args as-is. Summarize each step result."

/-- `args` of the `map.route` step: `{"from", "to"}` plus `depart_time`
when a time was parsed (`if hhmm:`). -/
def routeArgs (frm dst : String) (hhmm : Option String) : List (String × String) :=
  [("from", frm), ("to", dst)] ++
    (if pyTruthy hhmm then [("depart_time", pyVal hhmm)] else [])

/-- The per-intent branch of `create_plan`: the emitted steps and the
branch's appended assumptions, in source order.  `allow` is the tool
admission closure. -/
def branchParts (goal : String) (allow : String → Bool) : List PlanStep × List String :=
  let intent_type := _classify_intent goal
  if intent_type = "route" then
    let r := _infer_route goal
    let date_token := _infer_date_token goal
    let hhmm := _infer_hhmm goal
    if !pyTruthy r.1 || !pyTruthy r.2 then
      ([], [routeParseAssumption])
    else
      let s1 := if allow "calendar.read" then
          [{ step_id := stepId 1, tool_name := "calendar.read",
             args := [("date", date_token)], on_fail := none }] else []
      let s2 := if allow "map.route" then
          s1 ++ [{ step_id := stepId (s1.length + 1), tool_name := "map.route",
                   args := routeArgs (pyVal r.1) (pyVal r.2) hhmm, on_fail := none }]
        else s1
      (s2, [])
  else if intent_type = "schedule_create" then
    let title := _infer_title goal
    let date_token := _infer_date_token goal
    let hhmm := _infer_hhmm goal
    let notes := (if !pyTruthy title then [titleAssumption] else []) ++
      (if !pyTruthy hhmm then [timeAssumption] else [])
    let steps :=
      if pyTruthy title && pyTruthy hhmm then
        let s1 := if allow "calendar.read" then
            [{ step_id := stepId 1, tool_name := "calendar.read",
               args := [("date", date_token)], on_fail := none }] else []
        if allow "calendar.create" then
          s1 ++ [{ step_id := stepId (s1.length + 1), tool_name := "calendar.create",
                   args := [("title", pyVal title), ("date", date_token), ("time", pyVal hhmm)],
                   on_fail := none }]
        else s1
      else []
    (steps, notes)
  else if intent_type = "schedule_update" then
    ([], [updateAssumption])
  else if intent_type = "schedule_cancel" then
    ([], [cancelAssumption])
  else if intent_type = "paper_search_summarize_email" then
    let to_email := _infer_email goal
    let notes := (if !pyTruthy to_email then [emailAssumption] else []) ++ [paperQueryAssumption]
    let steps :=
      if pyTruthy to_email && allow "paper.search" && allow "paper.summarize" &&
          allow "email.send" then
        [{ step_id := stepId 1, tool_name := "paper.search",
           args := [("query", goal)], on_fail := none },
         { step_id := stepId 2, tool_name := "paper.summarize",
           args := [("query", goal)], on_fail := none },
         { step_id := stepId 3, tool_name := "email.send",
           args := [("to", pyVal to_email)], on_fail := none }]
      else []
    (steps, notes)
  else if intent_type = "news_analyze_kakao_send" then
    let steps :=
      if allow "news.search" && allow "news.summarize" && allow "kakao.send" then
        [{ step_id := stepId 1, tool_name := "news.search",
           args := [("topic", goal)], on_fail := none },
         { step_id := stepId 2, tool_name := "news.summarize",
           args := [("topic", goal)], on_fail := none },
         { step_id := stepId 3, tool_name := "kakao.send",
           args := [("target", "me")], on_fail := none }]
      else []
    (steps, [newsAssumption])
  else
    ([], [unknownAssumption])

/-- The `allow` closure of `create_plan`: strict mode filters against the
availability set only when that set is non-empty
(`if strict_available_tools and avail_list: return tool_name in avail`). -/
def allowOf (available_tools : Option (List String)) (strict_available_tools : Bool) :
    String → Bool := fun tool_name =>
  if strict_available_tools && !(available_tools.getD []).isEmpty then
    (available_tools.getD []).contains tool_name
  else true

/-- `create_plan` from `src/planner.py`.  The `uuid`-based plan id is the
function's only non-deterministic input and is passed as `planId`;
`avail_list = available_tools or []` makes `None` and `[]` coincide, and
the `allow` closure admits every tool unless strict mode is on with a
non-empty availability list. -/
def create_plan (planId goal : String) (available_tools : Option (List String))
    (strict_available_tools : Bool) : Plan :=
  let avail_list := available_tools.getD []
  let allow := allowOf available_tools strict_available_tools
  let bp := branchParts goal allow
  { plan_id := planId
    intent := goal
    steps := bp.1
    assumptions := confirmAssumption ::
      ((if avail_list.isEmpty then [noToolsAssumption] else []) ++ bp.2)
    required_confirmations :=
      (bp.1.filter fun s => _is_write_like s.tool_name).map
        (fun s => s.tool_name ++ " requires user confirmation")
    execution_hint := executionHint }

/-! ## Claim theorems about `create_plan` -/

/-- C1: with `strict_available_tools=True` and an empty or omitted
`available_tools`, `create_plan` returns the same `Plan` (same `intent`,
`steps`, `assumptions`, `required_confirmations`, `execution_hint`; the
plan id is the explicit `planId` input here) as with
`strict_available_tools=False`: an empty availability list is always
permissive. -/
theorem allowOf_empty (a : Option (List String)) (h : a = none ∨ a = some [])
    (strict : Bool) : allowOf a strict = fun _ => true := by
  rcases h with rfl | rfl <;> funext t <;> simp [allowOf]

theorem C1_empty_availability_is_permissive (planId goal : String)
    (a : Option (List String)) (h : a = none ∨ a = some []) :
    create_plan planId goal a true = create_plan planId goal a false := by
  unfold create_plan
  rw [allowOf_empty a h true, allowOf_empty a h false]

theorem C1_empty_availability_is_permissive_witness :
    create_plan "plan-w1" "미팅 취소해줘" none true =
      create_plan "plan-w1" "미팅 취소해줘" none false :=
  C1_empty_availability_is_permissive "plan-w1" "미팅 취소해줘" none (Or.inl rfl)

/-- C2: `required_confirmations` is exactly the write-like steps mapped to
their confirmation message — every step whose tool name ends in
`.create`, `.write`, `.update`, `.delete` or `.send` contributes exactly
one entry and every other step none, so its length equals the number of
write-like steps. -/
theorem C2_confirmations_one_per_write_like_step (planId goal : String)
    (a : Option (List String)) (strict : Bool) :
    (create_plan planId goal a strict).required_confirmations =
      ((create_plan planId goal a strict).steps.filter fun s =>
        _is_write_like s.tool_name).map
        (fun s => s.tool_name ++ " requires user confirmation") ∧
    (create_plan planId goal a strict).required_confirmations.length =
      (create_plan planId goal a strict).steps.countP fun s =>
        _is_write_like s.tool_name := by
  refine ⟨rfl, ?_⟩
  have h1 : (create_plan planId goal a strict).required_confirmations =
      ((create_plan planId goal a strict).steps.filter fun s =>
        _is_write_like s.tool_name).map
        (fun s => s.tool_name ++ " requires user confirmation") := rfl
  rw [h1, List.length_map, List.countP_eq_length_filter]

theorem branchParts_update_eq (goal : String) (allow : String → Bool)
    (h : _classify_intent goal = "schedule_update") :
    branchParts goal allow = ([], [updateAssumption]) := by
  unfold branchParts
  rw [h]
  rfl

theorem branchParts_cancel_eq (goal : String) (allow : String → Bool)
    (h : _classify_intent goal = "schedule_cancel") :
    branchParts goal allow = ([], [cancelAssumption]) := by
  unfold branchParts
  rw [h]
  rfl

/-- C7: for every goal classified `schedule_update` or `schedule_cancel`,
the plan has no steps, whatever the tool-availability input, and the
assumptions contain a note mentioning the missing event identifier
`event_ref`. -/
theorem C7_update_cancel_no_steps (planId goal : String)
    (a : Option (List String)) (strict : Bool)
    (h : _classify_intent goal = "schedule_update" ∨
      _classify_intent goal = "schedule_cancel") :
    (create_plan planId goal a strict).steps = [] ∧
    ∃ note ∈ (create_plan planId goal a strict).assumptions,
      pyContains note "event_ref" = true := by
  have hs : (create_plan planId goal a strict).steps =
      (branchParts goal (allowOf a strict)).1 := rfl
  have ha : (create_plan planId goal a strict).assumptions =
      confirmAssumption ::
        ((if (a.getD []).isEmpty then [noToolsAssumption] else []) ++
          (branchParts goal (allowOf a strict)).2) := rfl
  rcases h with h | h
  · rw [hs, ha, branchParts_update_eq goal _ h]
    refine ⟨rfl, updateAssumption, ?_, by decide⟩
    simp
  · rw [hs, ha, branchParts_cancel_eq goal _ h]
    refine ⟨rfl, cancelAssumption, ?_, by decide⟩
    simp

/-- C7 witness: the spec's Scenario C.  `"미팅 취소해줘"` with no
`available_tools` classifies as `schedule_cancel`, yields no steps, and
the assumptions carry an `event_ref` note. -/
theorem C7_update_cancel_no_steps_witness :
    _classify_intent "미팅 취소해줘" = "schedule_cancel" ∧
    ((create_plan "plan-w7" "미팅 취소해줘" none true).steps = [] ∧
      ∃ note ∈ (create_plan "plan-w7" "미팅 취소해줘" none true).assumptions,
        pyContains note "event_ref" = true) :=
  ⟨by decide,
    C7_update_cancel_no_steps "plan-w7" "미팅 취소해줘" none true (Or.inr (by decide))⟩

theorem branchParts_step_ids (goal : String) (allow : String → Bool) :
    ((branchParts goal allow).1.map PlanStep.step_id) =
      (List.range (branchParts goal allow).1.length).map (fun i => stepId (i + 1)) := by
  simp only [branchParts]
  split_ifs <;> rfl

/-- C8: step identifiers are contiguous from 1 in emission order — the
i-th emitted step (1-based) has `step_id = "step-i"`, including when an
optional leading `calendar.read` step is suppressed by the tool-admission
filter. -/
theorem C8_step_ids_contiguous (planId goal : String)
    (a : Option (List String)) (strict : Bool) :
    (create_plan planId goal a strict).steps.map PlanStep.step_id =
      (List.range (create_plan planId goal a strict).steps.length).map
        (fun i => stepId (i + 1)) :=
  branchParts_step_ids goal (allowOf a strict)

/-- C9: `create_plan` is deterministic up to the plan identifier: two
calls on identical `(goal, available_tools, strict_available_tools)`
agree on `intent`, `steps`, `assumptions`, `required_confirmations` and
`execution_hint`, whatever their (uuid-generated, here explicit) plan
ids. -/
theorem C9_deterministic_up_to_plan_id (pid1 pid2 goal : String)
    (a : Option (List String)) (strict : Bool) :
    (create_plan pid1 goal a strict).intent = (create_plan pid2 goal a strict).intent ∧
    (create_plan pid1 goal a strict).steps = (create_plan pid2 goal a strict).steps ∧
    (create_plan pid1 goal a strict).assumptions =
      (create_plan pid2 goal a strict).assumptions ∧
    (create_plan pid1 goal a strict).required_confirmations =
      (create_plan pid2 goal a strict).required_confirmations ∧
    (create_plan pid1 goal a strict).execution_hint =
      (create_plan pid2 goal a strict).execution_hint :=
  ⟨rfl, rfl, rfl, rfl, rfl⟩

/-- C10: the assumptions list is never empty and always starts with the
fixed confirmation-policy notice; every degraded-condition note comes
after it. -/
theorem C10_assumptions_start_with_policy_notice (planId goal : String)
    (a : Option (List String)) (strict : Bool) :
    (create_plan planId goal a strict).assumptions ≠ [] ∧
    (create_plan planId goal a strict).assumptions.head? = some confirmAssumption ∧
    ∃ rest, (create_plan planId goal a strict).assumptions =
      confirmAssumption :: rest :=
  ⟨List.cons_ne_nil _ _, rfl, _, rfl⟩

end ToolBartender
